import Mathlib

/-!  Verification of the volumio-tui session layer (bakito/volumio-tui,
`main.go` and the extracted client package): the Volumio HTTP control client,
host resolution and mDNS discovery, the TCP liveness probe, and the
bubbletea-style event loop, modelled as pure Lean functions.  Network calls
(TCP dials, HTTP exchanges, the JSON decoder) are modelled by their observable
outcomes, passed in as explicit values or oracles.  -/

namespace VolumioTui

/-- Go `strings.HasPrefix` over character lists. -/
def listStartsWith (s pat : List Char) : Bool :=
  match pat, s with
  | [], _ => true
  | _ :: _, [] => false
  | b :: bs, a :: as => a == b && listStartsWith as bs

/-- Go `strings.Contains` over character lists: a sliding-window substring
test. -/
def hasSubstr (s pat : List Char) : Bool :=
  match s with
  | [] => pat.isEmpty
  | _ :: as => listStartsWith s pat || hasSubstr as pat

/-- Go `strings.Contains` on strings. -/
def strContains (s pat : String) : Bool :=
  hasSubstr s.data pat.data

/-- The white-space predicate of Go `strings.TrimSpace`, restricted to the
common one-byte white-space code points. -/
def goIsSpace (c : Char) : Bool :=
  c == ' ' || c == '\t' || c == '\n' || c == '\r' || c == '\x0b' || c == '\x0c'

/-- Go `strings.TrimSpace`. -/
def goTrimSpace (s : String) : String :=
  ⟨((s.data.dropWhile goIsSpace).reverse.dropWhile goIsSpace).reverse⟩

/-- Go `strings.TrimRight` with a single-character cut set. -/
def goTrimRight (s : String) (cut : Char) : String :=
  ⟨(s.data.reverse.dropWhile (fun c => c == cut)).reverse⟩

/-- Go `strings.TrimSuffix`. -/
def goTrimSuffix (s suffix : String) : String :=
  if listStartsWith s.data.reverse suffix.data.reverse then
    ⟨s.data.take (s.data.length - suffix.data.length)⟩
  else s

/-- Go `net.JoinHostPort`: a host containing a colon (an IPv6 literal) is
bracket-quoted before the port is appended. -/
def joinHostPort (host port : String) : String :=
  if strContains host ":" then "[" ++ host ++ "]:" ++ port
  else host ++ ":" ++ port

/-  ---------------------------------------------------------------------
    ControlClient (volumioClient, main.go 39-152 / client package)
    --------------------------------------------------------------------- -/

/-- Error text of `volumioClient.cmd` on a non-2xx status (main.go 76).
`fmt` verb `%q` on the plain transport tokens used here is plain double
quoting. -/
def cmdError (command : String) (status : Nat) : String :=
  "command \"" ++ command ++ "\" failed: status " ++ toString status

/-- Outcome of `volumioClient.cmd` as a function of the HTTP status code
(main.go 63-79): any 2xx status is a success, everything else an error
naming the command and the status. -/
def cmdResult (command : String) (status : Nat) : Except String Unit :=
  if status < 200 ∨ 300 ≤ status then Except.error (cmdError command status)
  else Except.ok ()

/-- The volume clamp written (identically) at the top of `SetVolume`
(main.go 88-93) and inside `changeVolume` (main.go 449-454): two sequential
reassignments. -/
def clampVolume (vol : Int) : Int :=
  let vol := if vol < 0 then 0 else vol
  if vol > 100 then 100 else vol

/-- The request URL built by `SetVolume` (main.go 87-95): the clamped value
is formatted into a `volume` query parameter separate from the `cmd=volume`
command token. -/
def setVolumeRequestURL (baseURL : String) (vol : Int) : String :=
  goTrimRight baseURL '/' ++ "/api/v1/commands/?cmd=volume&volume="
    ++ toString (clampVolume vol)

/-- Response handling of `SetVolume` (main.go 100-108). -/
def setVolumeResult (status : Nat) : Except String Unit :=
  if status < 200 ∨ 300 ≤ status then
    Except.error ("set volume failed: status " ++ toString status)
  else Except.ok ()

/-- Player state snapshot decoded from `/api/v1/getState`
(struct `state`, main.go 111-130); field names follow the Go struct. -/
structure State where
  Status : String
  Title : String
  Artist : String
  Album : String
  Seek : Int
  Duration : Float
  Volume : Int
  Repeat : Bool
  Random : Bool
  Consume : Bool
  VolumioVer : String
  Service : String
  TrackType : String
  Samplerate : String
  Bitdepth : String
  Channels : Int
  Updated : String
  DisableState : Bool

/-- Outcome of `GetState` (main.go 132-152): a non-2xx status is an error
naming the call and the status; otherwise the result is whatever the JSON
decoder produced on the body (`decoded`). -/
def getStateResult (status : Nat) (decoded : Except String State) :
    Except String State :=
  if status < 200 ∨ 300 ≤ status then
    Except.error ("getState failed: status " ++ toString status)
  else decoded

/-  ---------------------------------------------------------------------
    HostResolver: VOLUMIO_HOST normalization and mDNS discovery
    --------------------------------------------------------------------- -/

/-- Normalization applied by `getDefaultHost` to a non-empty `VOLUMIO_HOST`
value (main.go 275-283): prepend `http://` when no scheme delimiter is
present, then append `:3000` when no colon is present. -/
def normalizeVolumioHost (v : String) : String :=
  let v := if !(strContains v "://") then "http://" ++ v else v
  if !(strContains v ":") then v ++ ":3000" else v

/-- The fields of a zeroconf service advertisement used by
`discoverVolumio`, addresses kept as their textual form. -/
structure ServiceEntry where
  addrIPv4 : List String
  addrIPv6 : List String
  hostName : String
  port : Nat

/-- Host picked from an advertisement (main.go 305-317): first IPv4 address,
else first IPv6 address in brackets, else the hostname with a trailing dot
stripped, else empty. -/
def entryHost (e : ServiceEntry) : String :=
  match e.addrIPv4 with
  | ip :: _ => ip
  | [] =>
    match e.addrIPv6 with
    | ip :: _ => "[" ++ ip ++ "]"
    | [] => if e.hostName ≠ "" then goTrimSuffix e.hostName "." else ""

/-- The accept filter of the discovery loop (main.go 319-321): entries with
no usable host or a zero port are skipped. -/
def entryAccepted (e : ServiceEntry) : Bool :=
  entryHost e != "" && e.port != 0

/-- The base address built for an accepted advertisement (main.go 323). -/
def discoveredAddr (e : ServiceEntry) : String :=
  "http://" ++ joinHostPort (entryHost e) (toString e.port)

/-  ---------------------------------------------------------------------
    probeHost (main.go 377-403) over an abstract dial oracle
    --------------------------------------------------------------------- -/

/-- Index of the last ':' in a character list (Go `strings.LastIndexByte`). -/
def lastColonIdx (cs : List Char) : Option Nat :=
  ((cs.enum.filter (fun p => p.2 == ':')).map (fun p => p.1)).getLast?

/-- Go `net/url` `validOptionalPort`: empty, or ':' followed by digits only. -/
def validOptionalPort (p : List Char) : Bool :=
  match p with
  | [] => true
  | ':' :: rest => rest.all (fun c => '0' ≤ c && c ≤ '9')
  | _ => false

/-- Go `url.URL.Hostname()`: strip a valid trailing `:port` from the host
component, then strip surrounding IPv6 brackets. -/
def goHostname (host : String) : String :=
  let cs := host.data
  let h :=
    match lastColonIdx cs with
    | some i => if validOptionalPort (cs.drop i) then cs.take i else cs
    | none => cs
  let h :=
    match h with
    | '[' :: rest => if rest.getLast? = some ']' then rest.dropLast else '[' :: rest
    | _ => h
  ⟨h⟩

/-- The first address `probeHost` dials: the URL's host component, with
`:80` appended when it contains no colon (main.go 382-385). -/
def probeAddr (host : String) : String :=
  if !(strContains host ":") then host ++ ":80" else host

/-- The host component of the parsed target URL (`u.Host`). -/
structure TargetURL where
  host : String

/-- `probeHost` (main.go 377-403) with TCP dialing abstracted into the
oracle `dial`: dial the stated address; on failure retry the bare hostname
on port 3000; succeed when either dial succeeds. -/
def probeHost (u : TargetURL) (dial : String → Bool) : Bool :=
  if dial (probeAddr u.host) then true
  else dial (goHostname u.host ++ ":3000")

/-  ---------------------------------------------------------------------
    Session event loop (model/Update, main.go 191-603)
    --------------------------------------------------------------------- -/

/-- Which key binding a key press matches (defaultKeymap, main.go 172-189).
The terminal-specific fallback cases for space/up/down coincide with
`playPause`/`volUp`/`volDown`. -/
inductive KeyKind where
  | saveHost | cancel | quit | help | editHost | image
  | playPause | play | pause | stop | refresh | volUp | volDown
  | other
  deriving DecidableEq

/-- Messages consumed by `Update` (main.go 346-350 and bubbletea's built-in
key/window messages). `unknown` stands for any other message type. -/
inductive Msg where
  | key (k : KeyKind)
  | windowSize (w h : Int)
  | refreshMsg (s : State)
  | connectedMsg (ok : Bool)
  | errorMsg (e : String)
  | unknown

/-- Commands returned by `Update`, named by the operation the corresponding
`tea.Cmd` closure performs when the runtime executes it. -/
inductive Cmd where
  | none
  | quit
  | batch (cs : List Cmd)
  | connect (host : String)
  | refresh
  | transport (command : String)
  | setVolume (vol : Int)
  | inputUpdate

/-- The mutable session aggregate (struct `model`, main.go 191-211).
`clientPresent` models `m.client != nil`, `hostInputValue` the text-input
buffer, `pollTickerSet`/`tickPending` the poll ticker and whether a tick is
ready on its channel; the image cache fields are presentation-only and
omitted. -/
structure Model where
  clientPresent : Bool
  hostInputValue : String
  host : String
  st : State
  err : Option String
  loading : Bool
  pollTickerSet : Bool
  tickPending : Bool
  showHelp : Bool
  editing : Bool
  connected : Bool
  showImage : Bool
  winW : Int
  winH : Int

/-- `refreshCmd` (main.go 412-415): nil when no client exists. -/
def refreshCmd (m : Model) : Cmd :=
  if m.clientPresent then Cmd.refresh else Cmd.none

/-- The nil-client gate at the top of `simpleCmd` (main.go 458-461). -/
def simpleCmdGate (m : Model) (c : Cmd) : Cmd :=
  if m.clientPresent then c else Cmd.none

def playCmd (m : Model) : Cmd := simpleCmdGate m (Cmd.transport "play")

def pauseCmd (m : Model) : Cmd := simpleCmdGate m (Cmd.transport "pause")

def stopCmd (m : Model) : Cmd := simpleCmdGate m (Cmd.transport "stop")

def toggleCmd (m : Model) : Cmd := simpleCmdGate m (Cmd.transport "toggle")

/-- `changeVolume` (main.go 444-456): nil when no client exists, otherwise
clamp `st.Volume + delta` and send it as an absolute `setVolume`. -/
def changeVolumeCmd (m : Model) (delta : Int) : Cmd :=
  if !m.clientPresent then Cmd.none
  else simpleCmdGate m (Cmd.setVolume (clampVolume (m.st.Volume + delta)))

/-- The non-blocking poll-ticker check at the bottom of `Update`
(main.go 593-600). -/
def tickerCheck (m : Model) : Model × Cmd :=
  if m.pollTickerSet && m.tickPending then (m, refreshCmd m) else (m, Cmd.none)

/-- One step of `Update` (main.go 477-603). Messages whose `case` returns
directly never reach the ticker check; an unmatched key or unknown message
falls through to it. -/
def update (m : Model) (msg : Msg) : Model × Cmd :=
  match msg with
  | Msg.key k =>
    if m.editing then
      match k with
      | KeyKind.saveHost =>
        let val := goTrimSpace m.hostInputValue
        if val = "" then (m, Cmd.none)
        else
          let m' := { m with host := val, editing := false }
          (m', Cmd.batch [Cmd.connect m'.host, refreshCmd m'])
      | KeyKind.cancel => ({ m with editing := false }, Cmd.none)
      | _ => (m, Cmd.inputUpdate)
    else
      match k with
      | KeyKind.quit => (m, Cmd.quit)
      | KeyKind.help => ({ m with showHelp := !m.showHelp }, Cmd.none)
      | KeyKind.editHost => ({ m with editing := true }, Cmd.none)
      | KeyKind.image => ({ m with showImage := !m.showImage }, Cmd.none)
      | KeyKind.playPause => ({ m with loading := true }, toggleCmd m)
      | KeyKind.play => ({ m with loading := true }, playCmd m)
      | KeyKind.pause => ({ m with loading := true }, pauseCmd m)
      | KeyKind.stop => ({ m with loading := true }, stopCmd m)
      | KeyKind.refresh => ({ m with loading := true }, refreshCmd m)
      | KeyKind.volUp => ({ m with loading := true }, changeVolumeCmd m 5)
      | KeyKind.volDown => ({ m with loading := true }, changeVolumeCmd m (-5))
      | _ => tickerCheck m
  | Msg.windowSize w h => ({ m with winW := w, winH := h }, Cmd.none)
  | Msg.refreshMsg s => ({ m with st := s, err := none, loading := false }, Cmd.none)
  | Msg.connectedMsg _ => ({ m with loading := true }, refreshCmd m)
  | Msg.errorMsg e => ({ m with err := some e, loading := false }, Cmd.none)
  | Msg.unknown => tickerCheck m

/-- One run of the closure built by `connectCmd` (main.go 359-375).
`clientOk` models `newVolumioClient` succeeding, `probeOk` the probe
succeeding, `errText` the error text of whichever step failed.  The closure
mutates the session directly (a design wart the spec notes) and returns the
message the loop will process next. -/
def connectRun (m : Model) (clientOk probeOk : Bool) (errText : String) :
    Model × Msg :=
  if !clientOk then (m, Msg.errorMsg errText)
  else if !probeOk then
    ({ m with connected := false, clientPresent := true },
     Msg.errorMsg ("connect: " ++ errText))
  else
    ({ m with clientPresent := true, connected := true }, Msg.connectedMsg true)

/-- The message produced by one run of the closure built by `refreshCmd`
(main.go 416-424). -/
def refreshRun (r : Except String State) : Msg :=
  match r with
  | Except.error e => Msg.errorMsg e
  | Except.ok s => Msg.refreshMsg s

/-- The refreshes dispatched by one run of the closure `simpleCmd` builds
(main.go 462-474): on command failure only an error message is returned; on
success a batch of one immediate refresh and one `tea.Tick`-delayed (500 ms)
refresh. -/
structure Dispatch where
  errorReported : Option String
  immediateRefreshes : Nat
  delayedRefreshesMs : List Nat

def simpleCmdRun (fnResult : Except String Unit) : Dispatch :=
  match fnResult with
  | Except.error e =>
    { errorReported := some e, immediateRefreshes := 0, delayedRefreshesMs := [] }
  | Except.ok _ =>
    { errorReported := none, immediateRefreshes := 1, delayedRefreshesMs := [500] }

def totalRefreshes (d : Dispatch) : Nat :=
  d.immediateRefreshes + d.delayedRefreshesMs.length

/-- A player state with Go zero values, as a `state` struct starts out. -/
def emptyState : State :=
  { Status := "", Title := "", Artist := "", Album := "", Seek := 0,
    Duration := 0, Volume := 0, Repeat := false, Random := false,
    Consume := false, VolumioVer := "", Service := "", TrackType := "",
    Samplerate := "", Bitdepth := "", Channels := 0, Updated := "",
    DisableState := false }

/-- A concrete session model used to instantiate theorems. -/
def sampleModel (clientPresent editing : Bool) (vol : Int)
    (err : Option String) : Model :=
  { clientPresent := clientPresent, hostInputValue := "   ",
    host := "http://192.168.1.50:3000", st := { emptyState with Volume := vol },
    err := err, loading := false, pollTickerSet := true, tickPending := false,
    showHelp := false, editing := editing, connected := false,
    showImage := true, winW := 80, winH := 24 }

/-  ---------------------------------------------------------------------
    String lemmas used to state "the error mentions the command/status"
    --------------------------------------------------------------------- -/

theorem listStartsWith_append (p ys : List Char) :
    listStartsWith (p ++ ys) p = true := by
  induction p with
  | nil => simp [listStartsWith]
  | cons c cs ih => simp [listStartsWith, ih]

theorem hasSubstr_nil_pat (s : List Char) : hasSubstr s [] = true := by
  cases s <;> simp [hasSubstr, listStartsWith]

theorem hasSubstr_sandwich (xs p ys : List Char) :
    hasSubstr (xs ++ (p ++ ys)) p = true := by
  induction xs with
  | nil =>
    cases p with
    | nil => simpa using hasSubstr_nil_pat ys
    | cons c cs =>
      have h := listStartsWith_append (c :: cs) ys
      simp only [List.cons_append] at h
      simp [hasSubstr, h]
  | cons x xs ih => simp [hasSubstr, ih]

theorem data_append (a b : String) : (a ++ b).data = a.data ++ b.data := rfl

/-- If `s` splits as `a ++ m ++ b` at the character level then `m` is a
substring of `s`. -/
theorem strContains_parts (s a m b : String)
    (h : s.data = a.data ++ (m.data ++ b.data)) : strContains s m = true := by
  unfold strContains
  rw [h]
  exact hasSubstr_sandwich _ _ _

theorem cmdError_mentions_command (c : String) (status : Nat) :
    strContains (cmdError c status) c = true := by
  refine strContains_parts _ "command \"" c ("\" failed: status " ++ toString status) ?_
  simp [cmdError, data_append, List.append_assoc]

theorem cmdError_mentions_status (c : String) (status : Nat) :
    strContains (cmdError c status) (toString status) = true := by
  refine strContains_parts _ ("command \"" ++ c ++ "\" failed: status ") (toString status) "" ?_
  simp [cmdError, data_append, List.append_assoc]

theorem setVolumeError_mentions_volume (status : Nat) :
    strContains ("set volume failed: status " ++ toString status) "volume" = true := by
  refine strContains_parts _ "set " "volume" (" failed: status " ++ toString status) ?_
  have h : "set volume failed: status ".data
      = "set ".data ++ "volume".data ++ " failed: status ".data := rfl
  simp [data_append, h, List.append_assoc]

theorem setVolumeError_mentions_status (status : Nat) :
    strContains ("set volume failed: status " ++ toString status) (toString status) = true := by
  refine strContains_parts _ "set volume failed: status " (toString status) "" ?_
  simp [data_append]

theorem clampVolume_eq (v : Int) : clampVolume v = min 100 (max 0 v) := by
  simp only [clampVolume, min_def, max_def]
  split_ifs <;> omega

/-  ---------------------------------------------------------------------
    Claim theorems
    --------------------------------------------------------------------- -/

/-- C1 counterexample: a `play` command answered with status 500 reports the
failure but dispatches zero refresh attempts, not the two the claim
requires for failed commands as well. -/
theorem command_failure_refreshes_cex :
    (simpleCmdRun (cmdResult "play" 500)).errorReported
        = some "command \"play\" failed: status 500"
  ∧ totalRefreshes (simpleCmdRun (cmdResult "play" 500)) = 0
  ∧ totalRefreshes (simpleCmdRun (cmdResult "play" 500)) ≠ 2 := by
  decide

/-- C1 (amended): any transport or volume command answered with a non-2xx
status yields an error mentioning the command name and the status code, and
dispatches no refresh (only the error message is returned); exactly two
refresh attempts (one immediate, one delayed 500 ms) are dispatched only
when the command succeeds. -/
theorem command_failure_and_refresh_chain (c : String) (status : Nat) :
    (status < 200 ∨ 300 ≤ status →
        cmdResult c status = Except.error (cmdError c status)
      ∧ strContains (cmdError c status) c = true
      ∧ strContains (cmdError c status) (toString status) = true
      ∧ (simpleCmdRun (cmdResult c status)).errorReported = some (cmdError c status)
      ∧ totalRefreshes (simpleCmdRun (cmdResult c status)) = 0
      ∧ strContains ("set volume failed: status " ++ toString status) "volume" = true
      ∧ strContains ("set volume failed: status " ++ toString status) (toString status) = true
      ∧ totalRefreshes (simpleCmdRun (setVolumeResult status)) = 0)
  ∧ (200 ≤ status → status < 300 →
        cmdResult c status = Except.ok ()
      ∧ (simpleCmdRun (cmdResult c status)).immediateRefreshes = 1
      ∧ (simpleCmdRun (cmdResult c status)).delayedRefreshesMs = [500]
      ∧ totalRefreshes (simpleCmdRun (cmdResult c status)) = 2
      ∧ totalRefreshes (simpleCmdRun (setVolumeResult status)) = 2) := by
  constructor
  · intro h
    have hc : cmdResult c status = Except.error (cmdError c status) := by
      unfold cmdResult; rw [if_pos h]
    have hv : setVolumeResult status
        = Except.error ("set volume failed: status " ++ toString status) := by
      unfold setVolumeResult; rw [if_pos h]
    refine ⟨hc, cmdError_mentions_command c status, cmdError_mentions_status c status,
      ?_, ?_, setVolumeError_mentions_volume status,
      setVolumeError_mentions_status status, ?_⟩
    · rw [hc]; rfl
    · rw [hc]; rfl
    · rw [hv]; rfl
  · intro h1 h2
    have hn : ¬(status < 200 ∨ 300 ≤ status) := by omega
    have hc : cmdResult c status = Except.ok () := by
      unfold cmdResult; rw [if_neg hn]
    have hv : setVolumeResult status = Except.ok () := by
      unfold setVolumeResult; rw [if_neg hn]
    exact ⟨hc, by rw [hc]; rfl, by rw [hc]; rfl, by rw [hc]; rfl, by rw [hv]; rfl⟩

/-- C1 witness: the amended claim instantiated at command `play` with
status 500 (failure path) and status 204 (success path). -/
theorem command_failure_and_refresh_chain_witness :
    totalRefreshes (simpleCmdRun (cmdResult "play" 500)) = 0
  ∧ strContains (cmdError "play" 500) "play" = true
  ∧ strContains (cmdError "play" 500) (toString 500) = true
  ∧ totalRefreshes (simpleCmdRun (cmdResult "play" 204)) = 2
  ∧ (simpleCmdRun (cmdResult "play" 204)).delayedRefreshesMs = [500] :=
  ⟨((command_failure_and_refresh_chain "play" 500).1 (by decide)).2.2.2.2.1,
   ((command_failure_and_refresh_chain "play" 500).1 (by decide)).2.1,
   ((command_failure_and_refresh_chain "play" 500).1 (by decide)).2.2.1,
   ((command_failure_and_refresh_chain "play" 204).2 (by decide) (by decide)).2.2.2.1,
   ((command_failure_and_refresh_chain "play" 204).2 (by decide) (by decide)).2.2.1⟩

/-- C2 (code-bug evidence): normalizing the bare-host environment override
`192.168.1.50` yields `http://192.168.1.50` with no `:3000` appended — the
port-append branch is dead because the just-prepended scheme already
contains a colon. -/
theorem volumio_host_bare_host_result :
    normalizeVolumioHost "192.168.1.50" = "http://192.168.1.50"
  ∧ normalizeVolumioHost "192.168.1.50" ≠ "http://192.168.1.50:3000" := by
  decide

/-- C3 (amended): a successful probe retains the client, sets
`connected = true`, returns `connectedMsg`, and handling that message sets
busy and immediately dispatches a refresh — but `lastError` is left
unchanged rather than cleared. -/
theorem probe_success_transition (m : Model) (e : String) :
    (connectRun m true true e).2 = Msg.connectedMsg true
  ∧ (connectRun m true true e).1.connected = true
  ∧ (connectRun m true true e).1.clientPresent = true
  ∧ (connectRun m true true e).1.err = m.err
  ∧ update (connectRun m true true e).1 (connectRun m true true e).2
      = ({ (connectRun m true true e).1 with loading := true }, Cmd.refresh) :=
  ⟨rfl, rfl, rfl, rfl, rfl⟩

/-- C3 counterexample: with a stale `lastError` in place, a successful probe
followed by the `connectedMsg` handler leaves the error set — probe success
does not clear `lastError`. -/
theorem probe_success_keeps_lastError_cex :
    ((update (connectRun (sampleModel false false 0 (some "boom")) true true "x").1
        (connectRun (sampleModel false false 0 (some "boom")) true true "x").2).1.connected
      = true)
  ∧ ((update (connectRun (sampleModel false false 0 (some "boom")) true true "x").1
        (connectRun (sampleModel false false 0 (some "boom")) true true "x").2).1.err
      ≠ none) :=
  ⟨rfl, by decide⟩

/-- C4: a successful refresh replaces `lastState`, clears `lastError`, and
clears busy; a failed refresh — non-2xx status or undecodable body, both of
which surface as an error message — records the error and clears busy while
leaving `lastState` and `connected` untouched. -/
theorem refresh_completion (m : Model) (s : State) (e : String)
    (decoded : Except String State) :
    update m (refreshRun (Except.ok s))
      = ({ m with st := s, err := none, loading := false }, Cmd.none)
  ∧ update m (refreshRun (Except.error e))
      = ({ m with err := some e, loading := false }, Cmd.none)
  ∧ (update m (refreshRun (Except.error e))).1.st = m.st
  ∧ (update m (refreshRun (Except.error e))).1.connected = m.connected
  ∧ getStateResult 404 decoded = Except.error "getState failed: status 404"
  ∧ getStateResult 200 (Except.error e) = Except.error e
  ∧ getStateResult 200 (Except.ok s) = Except.ok s :=
  ⟨rfl, rfl, rfl, rfl, rfl, rfl, rfl⟩

/-- C5: `SetVolume` clamps every input into [0,100] and carries the clamped
value as a `volume` query parameter separate from the `cmd=volume` command
token; -5 sends 0, 150 sends 100, 42 sends 42. -/
theorem set_volume_clamped (baseURL : String) (v : Int) :
    setVolumeRequestURL baseURL v
      = goTrimRight baseURL '/' ++ "/api/v1/commands/?cmd=volume&volume="
          ++ toString (min 100 (max 0 v))
  ∧ 0 ≤ min 100 (max 0 v) ∧ min 100 (max 0 v) ≤ 100
  ∧ setVolumeRequestURL "http://h:3000" (-5)
      = "http://h:3000/api/v1/commands/?cmd=volume&volume=0"
  ∧ setVolumeRequestURL "http://h:3000" 150
      = "http://h:3000/api/v1/commands/?cmd=volume&volume=100"
  ∧ setVolumeRequestURL "http://h:3000" 42
      = "http://h:3000/api/v1/commands/?cmd=volume&volume=42" := by
  refine ⟨?_, le_min (by norm_num) (le_max_left 0 v), min_le_left _ _,
    by decide, by decide, by decide⟩
  unfold setVolumeRequestURL
  rw [clampVolume_eq]

/-- C6: while a client exists, a volume-step request sends the absolute
volume clamp(lastState.Volume + delta, 0, 100). -/
theorem change_volume_requested (m : Model) (d : Int)
    (hc : m.clientPresent = true) :
    changeVolumeCmd m d = Cmd.setVolume (min 100 (max 0 (m.st.Volume + d))) := by
  simp [changeVolumeCmd, simpleCmdGate, hc, clampVolume_eq]

/-- C6 witness: from volume 98 a +5 step requests 100; from volume 2 a -5
step requests 0. -/
theorem change_volume_requested_witness :
    changeVolumeCmd (sampleModel true false 98 none) 5 = Cmd.setVolume 100
  ∧ changeVolumeCmd (sampleModel true false 2 none) (-5) = Cmd.setVolume 0 := by
  constructor
  · rw [change_volume_requested (sampleModel true false 98 none) 5 rfl]
    show Cmd.setVolume (min 100 (max 0 ((98 : Int) + 5))) = Cmd.setVolume 100
    exact congrArg Cmd.setVolume (by omega)
  · rw [change_volume_requested (sampleModel true false 2 none) (-5) rfl]
    show Cmd.setVolume (min 100 (max 0 ((2 : Int) + -5))) = Cmd.setVolume 0
    exact congrArg Cmd.setVolume (by omega)

/-- C7: the probe dials the stated host component (with `:80` appended when
it contains no colon, i.e. no port) and on failure falls back to the bare
hostname on `:3000`; it succeeds exactly when one of the two dials
succeeds. -/
theorem probe_two_attempts (u : TargetURL) (dial : String → Bool) :
    probeHost u dial
      = (dial (probeAddr u.host) || dial (goHostname u.host ++ ":3000"))
  ∧ (strContains u.host ":" = false → probeAddr u.host = u.host ++ ":80")
  ∧ (strContains u.host ":" = true → probeAddr u.host = u.host) := by
  refine ⟨?_, ?_, ?_⟩
  · unfold probeHost
    cases h : dial (probeAddr u.host) <;> simp [h]
  · intro h; simp [probeAddr, h]
  · intro h; simp [probeAddr, h]

/-- C7 witness: a portless host that only answers on 3000 — the probe
defaults the stated port to 80 and succeeds via the fallback dial. -/
theorem probe_two_attempts_witness :
    probeAddr "myhost" = "myhost" ++ ":80"
  ∧ probeHost ⟨"myhost"⟩ (fun a => a == "myhost:3000") = true := by
  constructor
  · exact (probe_two_attempts ⟨"myhost"⟩ (fun a => a == "myhost:3000")).2.1 (by decide)
  · rw [(probe_two_attempts ⟨"myhost"⟩ (fun a => a == "myhost:3000")).1]
    decide

/-- C8: the discovery host preference order — first IPv4 address, else the
first IPv6 address wrapped in brackets, else the hostname with a trailing
dot stripped — combined with the advertised port into an `http://` base
address through `joinHostPort`. -/
theorem discovery_host_preference (e : ServiceEntry) :
    (∀ ip rest, e.addrIPv4 = ip :: rest →
        entryHost e = ip
      ∧ discoveredAddr e = "http://" ++ joinHostPort ip (toString e.port))
  ∧ (∀ ip rest, e.addrIPv4 = [] → e.addrIPv6 = ip :: rest →
        entryHost e = "[" ++ ip ++ "]"
      ∧ discoveredAddr e
          = "http://" ++ joinHostPort ("[" ++ ip ++ "]") (toString e.port))
  ∧ (e.addrIPv4 = [] → e.addrIPv6 = [] → e.hostName ≠ "" →
        entryHost e = goTrimSuffix e.hostName "."
      ∧ discoveredAddr e
          = "http://" ++ joinHostPort (goTrimSuffix e.hostName ".") (toString e.port)) := by
  refine ⟨?_, ?_, ?_⟩
  · intro ip rest h4
    have hh : entryHost e = ip := by simp [entryHost, h4]
    exact ⟨hh, by simp [discoveredAddr, hh]⟩
  · intro ip rest h4 h6
    have hh : entryHost e = "[" ++ ip ++ "]" := by simp [entryHost, h4, h6]
    exact ⟨hh, by simp [discoveredAddr, hh]⟩
  · intro h4 h6 hn
    have hh : entryHost e = goTrimSuffix e.hostName "." := by
      simp [entryHost, h4, h6, hn]
    exact ⟨hh, by simp [discoveredAddr, hh]⟩

/-- C8 witness: an advertisement carrying both an IPv4 address and a
hostname resolves through the IPv4 address; an IPv6-only advertisement gets
a bracketed host; a hostname-only advertisement loses its trailing dot. -/
theorem discovery_host_preference_witness :
    entryHost ⟨["192.168.1.10"], [], "volumio.local.", 3000⟩ = "192.168.1.10"
  ∧ discoveredAddr ⟨["192.168.1.10"], [], "volumio.local.", 3000⟩
      = "http://" ++ joinHostPort "192.168.1.10" (toString (3000 : Nat))
  ∧ entryHost ⟨[], ["fe80::1"], "", 3000⟩ = "[" ++ "fe80::1" ++ "]"
  ∧ entryHost ⟨[], [], "volumio.local.", 80⟩ = goTrimSuffix "volumio.local." "." := by
  refine ⟨?_, ?_, ?_, ?_⟩
  · exact ((discovery_host_preference
      ⟨["192.168.1.10"], [], "volumio.local.", 3000⟩).1 "192.168.1.10" [] rfl).1
  · exact ((discovery_host_preference
      ⟨["192.168.1.10"], [], "volumio.local.", 3000⟩).1 "192.168.1.10" [] rfl).2
  · exact ((discovery_host_preference
      ⟨[], ["fe80::1"], "", 3000⟩).2.1 "fe80::1" [] rfl rfl).1
  · exact ((discovery_host_preference
      ⟨[], [], "volumio.local.", 80⟩).2.2 rfl rfl (by decide)).1

/-- C9: committing a host edit whose buffer trims to empty is a no-op: the
model — target address, connected flag, editing mode — is unchanged and no
command is dispatched. -/
theorem edit_commit_blank_noop (m : Model) (he : m.editing = true)
    (hb : goTrimSpace m.hostInputValue = "") :
    update m (Msg.key KeyKind.saveHost) = (m, Cmd.none) := by
  simp [update, he, hb]

/-- C9 witness: a blank (three-space) edit buffer at a concrete model. -/
theorem edit_commit_blank_noop_witness :
    update (sampleModel true true 0 none) (Msg.key KeyKind.saveHost)
      = (sampleModel true true 0 none, Cmd.none) :=
  edit_commit_blank_noop (sampleModel true true 0 none) rfl (by decide)

/-- C10: in normal mode with no client, every transport, volume, or refresh
key sets the busy flag yet dispatches no command — busy stays true with no
outstanding operation whose completion would clear it. -/
theorem keys_no_client_busy_leak (m : Model) (k : KeyKind)
    (he : m.editing = false) (hc : m.clientPresent = false)
    (hk : k = KeyKind.playPause ∨ k = KeyKind.play ∨ k = KeyKind.pause ∨
          k = KeyKind.stop ∨ k = KeyKind.refresh ∨ k = KeyKind.volUp ∨
          k = KeyKind.volDown) :
    (update m (Msg.key k)).1.loading = true
  ∧ (update m (Msg.key k)).2 = Cmd.none := by
  rcases hk with h | h | h | h | h | h | h <;> subst h <;>
    simp [update, he, hc, toggleCmd, playCmd, pauseCmd, stopCmd, refreshCmd,
      changeVolumeCmd, simpleCmdGate]

/-- C10 witness: pressing play/pause with no client at a concrete model. -/
theorem keys_no_client_busy_leak_witness :
    (update (sampleModel false false 0 none) (Msg.key KeyKind.playPause)).1.loading = true
  ∧ (update (sampleModel false false 0 none) (Msg.key KeyKind.playPause)).2 = Cmd.none :=
  keys_no_client_busy_leak (sampleModel false false 0 none) KeyKind.playPause rfl rfl
    (Or.inl rfl)

end VolumioTui
